import Mathlib

/-!
Verification of the Video-Downloader repository (a PySide6 GUI over yt-dlp).

Shallow embedding of the three source files:
  src/core/downloader.py : DownloadManager (option mapper, worker, progress hook)
  src/main.py            : application shell (option assembly, signal handlers)
  src/ui/main_window.py  : widget defaults and control-state toggling

Python dictionaries with a fixed key set are embedded as structures; a key
that is only conditionally inserted becomes an Option field (none = key
absent); a key always present but possibly bound to Python None becomes an
Option field where none = None.  Python string truthiness is the test
against the empty string.  Machine reals in the progress hook are embedded
as exact rationals.
-/

namespace VideoDownloader

/-! ## Data model: the options dictionary assembled by main.py start_download

main.py (lines 60-73) always inserts every key, so every field is present.
custom_format is None unless the custom label is selected, hence Option. -/

structure Options where
  custom_format : Option String
  audio_format : String
  audio_quality : Nat
  remux_format : String
  subtitles : Bool
  thumbnail : Bool
  metadata : Bool
  chapters : Bool
  split_chapters : Bool
  playlist : Bool
  sponsorblock : Bool
  sponsorblock_categories : String
deriving Repr, DecidableEq

/-- A yt-dlp postprocessor entry, as appended in _build_ydl_options. -/
inductive Postprocessor where
  | ffmpegExtractAudio (preferredcodec : String) (preferredquality : String)
  | ffmpegVideoConvertor (preferedformat : String)
deriving Repr, DecidableEq

/-- The engine configuration dictionary built by _build_ydl_options.
Keys inserted only under a condition are Option fields (none = absent).
The format key is Option String because the dict value stored under the
custom label can be Python None (options.get returns the stored None when
the key is present). -/
structure YdlOpts where
  format : Option String
  outtmpl : String
  quiet : Bool
  no_warnings : Bool
  ignoreerrors : Bool
  restrictfilenames : Bool
  merge_output_format : String
  postprocessors : List Postprocessor
  audioformat : Option String
  audioquality : Option String
  remuxvideo : Option String
  writesubtitles : Option Bool
  subtitleslangs : Option (List String)
  embedsubtitles : Option Bool
  writethumbnail : Option Bool
  embedthumbnail : Option Bool
  addmetadata : Option Bool
  embedchapters : Option Bool
  splitchapters : Option Bool
  noplaylist : Bool
  sponsorblock_remove : Option String
deriving Repr, DecidableEq

/-! ## The option mapper (_build_ydl_options, downloader.py lines 56-146) -/

/-- downloader.py line 59: the container extension.  The truthiness test
options.get applies to the always-present remux_format string, so it is the
non-emptiness test. -/
def defaultVideoExt (o : Options) : String :=
  if o.remux_format ≠ "" ∧ o.remux_format ≠ "Default" then o.remux_format.toLower else "mp4"

/-- downloader.py line 60: the audio extension. -/
def defaultAudioExt (o : Options) : String :=
  if o.audio_format ≠ "" then o.audio_format.toLower else "m4a"

/-- downloader.py line 63. -/
def audio_only_formats : List String := ["Best audio only"]

/-- The fallback expression used for the Best (video+audio) entry, the
custom-entry second argument of dict.get, and the unknown-label fallback
(downloader.py lines 66, 76, 81). -/
def defaultFormatExpr (v a : String) : String :=
  "bestvideo[ext=" ++ v ++ "]+bestaudio[ext=" ++ a ++ "]/best[ext=" ++ v ++ "]/best"

/-- The format_map dictionary (downloader.py lines 65-77) as a lookup:
some value when the label is a key of the dict, none otherwise.  The value
bound to the custom label is options.get applied with a fallback, but the
custom_format key is always present in the dictionary main.py builds, so
Python dict.get returns the stored value even when that value is None or
the empty string; the written fallback can never apply.  Hence the entry is
the stored Option String itself. -/
def formatMapLookup (label : String) (v a : String) (custom : Option String) :
    Option (Option String) :=
  if label = "Best (video+audio)" then some (some (defaultFormatExpr v a))
  else if label = "Best video only" then some (some ("bestvideo[ext=" ++ v ++ "]"))
  else if label = "Best audio only" then some (some ("bestaudio[ext=" ++ a ++ "]"))
  else if label = "1440p" then
    some (some ("bestvideo[height<=1440][ext=" ++ v ++ "]+bestaudio[ext=" ++ a ++
      "]/best[height<=1440][ext=" ++ v ++ "]"))
  else if label = "1080p" then
    some (some ("bestvideo[height<=1080][ext=" ++ v ++ "]+bestaudio[ext=" ++ a ++
      "]/best[height<=1080][ext=" ++ v ++ "]"))
  else if label = "720p" then
    some (some ("bestvideo[height<=720][ext=" ++ v ++ "]+bestaudio[ext=" ++ a ++
      "]/best[height<=720][ext=" ++ v ++ "]"))
  else if label = "480p" then
    some (some ("bestvideo[height<=480][ext=" ++ v ++ "]+bestaudio[ext=" ++ a ++
      "]/best[height<=480][ext=" ++ v ++ "]"))
  else if label = "360p" then
    some (some ("bestvideo[height<=360][ext=" ++ v ++ "]+bestaudio[ext=" ++ a ++
      "]/best[height<=360][ext=" ++ v ++ "]"))
  else if label = "Worst (video+audio)" then
    some (some ("worstvideo[ext=" ++ v ++ "]+worstaudio[ext=" ++ a ++
      "]/worst[ext=" ++ v ++ "]"))
  else if label = "Custom format code..." then some custom
  else none

/-- os.path.join output_path with the fixed relative template
(downloader.py line 82); the second component is relative and non-empty, so
join inserts a separator unless the base already ends with one or is empty. -/
def joinOutputTemplate (output_path : String) : String :=
  if output_path = "" then "%(title)s.%(ext)s"
  else if output_path.endsWith "/" then output_path ++ "%(title)s.%(ext)s"
  else output_path ++ "/" ++ "%(title)s.%(ext)s"

/-- The base dictionary (downloader.py lines 79-90). -/
def baseYdlOpts (format_label : String) (output_path : String) (o : Options) : YdlOpts :=
  { format := match formatMapLookup format_label (defaultVideoExt o) (defaultAudioExt o)
        o.custom_format with
      | some stored => stored
      | none => some (defaultFormatExpr (defaultVideoExt o) (defaultAudioExt o))
    outtmpl := joinOutputTemplate output_path
    quiet := true
    no_warnings := true
    ignoreerrors := false
    restrictfilenames := true
    merge_output_format := defaultVideoExt o
    postprocessors := []
    audioformat := none
    audioquality := none
    remuxvideo := none
    writesubtitles := none
    subtitleslangs := none
    embedsubtitles := none
    writethumbnail := none
    embedthumbnail := none
    addmetadata := none
    embedchapters := none
    splitchapters := none
    noplaylist := true
    sponsorblock_remove := none }

/-- Lines 93-95: audio options, guarded by truthiness of the audio format. -/
def applyAudioOpts (o : Options) (y : YdlOpts) : YdlOpts :=
  if o.audio_format ≠ "" then
    { y with audioformat := some o.audio_format,
             audioquality := some (toString o.audio_quality) }
  else y

/-- Lines 97-109: append audio extraction for audio-only labels, video
conversion otherwise. -/
def applyPostStep (format_label : String) (o : Options) (y : YdlOpts) : YdlOpts :=
  if format_label ∈ audio_only_formats then
    { y with postprocessors := y.postprocessors ++
        [Postprocessor.ffmpegExtractAudio (defaultAudioExt o) (toString o.audio_quality)] }
  else
    { y with postprocessors := y.postprocessors ++
        [Postprocessor.ffmpegVideoConvertor (defaultVideoExt o)] }

/-- Lines 111-115: an explicit non-Default remux target requests remuxing
and wipes the postprocessor list. -/
def applyRemux (o : Options) (y : YdlOpts) : YdlOpts :=
  if o.remux_format ≠ "" ∧ o.remux_format ≠ "Default" then
    { y with remuxvideo := some o.remux_format, postprocessors := [] }
  else y

/-- Lines 118-121. -/
def applySubtitles (o : Options) (y : YdlOpts) : YdlOpts :=
  if o.subtitles then
    { y with writesubtitles := some true, subtitleslangs := some ["all"],
             embedsubtitles := some true }
  else y

/-- Lines 123-125. -/
def applyThumbnail (o : Options) (y : YdlOpts) : YdlOpts :=
  if o.thumbnail then { y with writethumbnail := some true, embedthumbnail := some true }
  else y

/-- Lines 127-128. -/
def applyMetadata (o : Options) (y : YdlOpts) : YdlOpts :=
  if o.metadata then { y with addmetadata := some true } else y

/-- Lines 130-131. -/
def applyChapters (o : Options) (y : YdlOpts) : YdlOpts :=
  if o.chapters then { y with embedchapters := some true } else y

/-- Lines 133-134. -/
def applySplitChapters (o : Options) (y : YdlOpts) : YdlOpts :=
  if o.split_chapters then { y with splitchapters := some true } else y

/-- Lines 136-140: the playlist flag decides the noplaylist key. -/
def applyPlaylist (o : Options) (y : YdlOpts) : YdlOpts :=
  if o.playlist then { y with noplaylist := false } else { y with noplaylist := true }

/-- Lines 142-144: SponsorBlock.  The categories key is always present in
the dict main.py builds, so dict.get returns the stored value. -/
def applySponsorblock (o : Options) (y : YdlOpts) : YdlOpts :=
  if o.sponsorblock then { y with sponsorblock_remove := some o.sponsorblock_categories }
  else y

/-- Embedding of _build_ydl_options (downloader.py lines 56-146): the base dictionary
threaded through the conditional updates in source order. -/
def build_ydl_options (format_label : String) (output_path : String) (o : Options) :
    YdlOpts :=
  applySponsorblock o (applyPlaylist o (applySplitChapters o (applyChapters o
    (applyMetadata o (applyThumbnail o (applySubtitles o (applyRemux o
      (applyPostStep format_label o (applyAudioOpts o
        (baseYdlOpts format_label output_path o))))))))))

/-! ## UI state and option assembly (main_window.py, main.py) -/

/-- The widget states read by start_download, with the control state toggled
by set_download_state.  Defaults mirror _init_ui: a QComboBox starts on its
first item, the playlist checkbox is explicitly setChecked True
(main_window.py line 140), all other checkboxes start unchecked, and the
audio quality slider starts at 5. -/
structure UIState where
  urlText : String
  formatLabel : String
  customFormatText : String
  audioFormatLabel : String
  audioQuality : Nat
  remuxLabel : String
  subtitlesChecked : Bool
  thumbnailChecked : Bool
  metadataChecked : Bool
  chaptersChecked : Bool
  splitChaptersChecked : Bool
  playlistChecked : Bool
  sponsorblockChecked : Bool
  sponsorblockCategoriesText : String
  outputPathText : String
deriving Repr, DecidableEq

/-- Widget defaults right after MainWindowUI._init_ui runs. -/
def defaultUIState : UIState :=
  { urlText := ""
    formatLabel := "Best (video+audio)"
    customFormatText := ""
    audioFormatLabel := "best"
    audioQuality := 5
    remuxLabel := "Default"
    subtitlesChecked := false
    thumbnailChecked := false
    metadataChecked := false
    chaptersChecked := false
    splitChaptersChecked := false
    playlistChecked := true
    sponsorblockChecked := false
    sponsorblockCategoriesText := ""
    outputPathText := "" }

/-- Python str.strip with no argument: remove leading and trailing
whitespace characters. -/
def pyStrip (s : String) : String :=
  String.mk (((s.data.dropWhile Char.isWhitespace).reverse.dropWhile
    Char.isWhitespace).reverse)

/-- The options dictionary main.py start_download assembles (lines 60-73).
The or-else idiom on the stripped categories yields "all" exactly when the
stripped string is empty. -/
def assembleOptions (ui : UIState) : Options :=
  { custom_format :=
      if ui.formatLabel = "Custom format code..." then some ui.customFormatText else none
    audio_format := ui.audioFormatLabel
    audio_quality := ui.audioQuality
    remux_format := ui.remuxLabel
    subtitles := ui.subtitlesChecked
    thumbnail := ui.thumbnailChecked
    metadata := ui.metadataChecked
    chapters := ui.chaptersChecked
    split_chapters := ui.splitChaptersChecked
    playlist := ui.playlistChecked
    sponsorblock := ui.sponsorblockChecked
    sponsorblock_categories :=
      if pyStrip ui.sponsorblockCategoriesText = "" then "all"
      else pyStrip ui.sponsorblockCategoriesText }

/-! ## Signals emitted by DownloadManager (downloader.py lines 14-19) -/

inductive Event where
  | statusUpdated (s : String)
  | progressUpdated (percent : Int)
  | speedUpdated (s : String)
  | etaUpdated (s : String)
  | downloadComplete (success : Bool) (message : String)
  | downloadStopped
deriving Repr, DecidableEq

/-! ## Worker state and start/stop (downloader.py lines 21-47) -/

/-- The mutable fields of DownloadManager: the cooperative stop flag, whether
a download thread object exists and is alive, and the stored engine options
(none = the initial empty dict). -/
structure MgrState where
  stopFlag : Bool
  threadAlive : Bool
  ydlOpts : Option YdlOpts
deriving Repr, DecidableEq

/-- DownloadManager.__init__ (lines 21-25). -/
def initMgrState : MgrState :=
  { stopFlag := false, threadAlive := false, ydlOpts := none }

/-- start_download (downloader.py lines 27-41): resulting manager state, the
signals emitted synchronously by the call, and the number of threads it
creates and starts. -/
def start_download (s : MgrState) (format_label output_path : String) (o : Options) :
    MgrState × List Event × Nat :=
  if s.threadAlive then
    (s, [Event.statusUpdated "A download is already in progress"], 0)
  else
    ({ stopFlag := false, threadAlive := true,
       ydlOpts := some (build_ydl_options format_label output_path o) },
     [], 1)

/-- stop_download (downloader.py lines 43-47): signals emitted synchronously,
and the stop flag is set. -/
def stop_download_events : List Event :=
  [Event.statusUpdated "Stopping download...", Event.downloadStopped]

/-! ## The background unit (_download_video, downloader.py lines 148-172)

The engine (yt-dlp) is an opaque black box; its call is summarized by the
behaviour it exhibits on this run.  Cooperative cancellation: when the stop
flag is set and the engine reports progress, the hook raises, the engine
call unwinds with that exception, and the except clause catches it — that
is the downloadRaises case with the hook message.  The stopFlag argument is
the flag value at the line-161 check, reached only when ydl.download
returns normally. -/

inductive EngineBehavior where
  | extractRaises (msg : String)
  | extractNone
  | downloadRaises (title : String) (msg : String)
  | succeeds (title : String) (outputFile : String)
deriving Repr, DecidableEq

/-- The signal sequence _download_video emits, in order.  Every exception
raised inside the try block is caught by the except clause (lines 170-172),
which emits an error status and a failure download_complete; nothing
propagates out of the thread. -/
def download_video_events (b : EngineBehavior) (stopFlag : Bool) : List Event :=
  match b with
  | .extractRaises msg =>
      [Event.statusUpdated "Preparing download...",
       Event.statusUpdated ("Error: " ++ msg),
       Event.downloadComplete false msg]
  | .extractNone =>
      [Event.statusUpdated "Preparing download...",
       Event.statusUpdated "Error: Failed to extract video info",
       Event.downloadComplete false "Failed to extract video info"]
  | .downloadRaises title msg =>
      [Event.statusUpdated "Preparing download...",
       Event.statusUpdated ("Downloading: " ++ title),
       Event.statusUpdated ("Error: " ++ msg),
       Event.downloadComplete false msg]
  | .succeeds title outputFile =>
      if stopFlag then
        [Event.statusUpdated "Preparing download...",
         Event.statusUpdated ("Downloading: " ++ title),
         Event.statusUpdated "Download cancelled",
         Event.downloadStopped]
      else
        [Event.statusUpdated "Preparing download...",
         Event.statusUpdated ("Downloading: " ++ title),
         Event.statusUpdated "Download complete",
         Event.downloadComplete true outputFile]

/-! ## The progress hook (_progress_hook, downloader.py lines 174-188) -/

/-- A yt-dlp progress dictionary.  total_bytes, speed and eta are only
sometimes present (none = key absent); downloaded_bytes is read only inside
the total_bytes guard, where yt-dlp supplies it.  Byte counts are naturals;
speed is an exact rational standing for the float; eta is an integer number
of seconds. -/
structure ProgressDict where
  status : String
  downloaded_bytes : Nat
  total_bytes : Option Nat
  speed : Option ℚ
  eta : Option Int
deriving DecidableEq

/-- Embedding of _format_speed (downloader.py lines 190-198), with the one-decimal float
formatting embedded as rounding down to tenths over ℚ. -/
def oneDecimal (q : ℚ) : String :=
  let tenths : Int := ⌊q * 10⌋
  toString (tenths / 10) ++ "." ++ toString (tenths % 10)

def format_speed (speed : ℚ) : String :=
  if speed < 1024 then oneDecimal speed ++ " B/s"
  else if speed < 1024 * 1024 then oneDecimal (speed / 1024) ++ " KB/s"
  else oneDecimal (speed / (1024 * 1024)) ++ " MB/s"

/-- Zero-padded two-digit rendering used by the f-string 02d specifier. -/
def pad2 (n : Int) : String :=
  if n < 10 then "0" ++ toString n else toString n

/-- Embedding of _format_eta (downloader.py lines 200-212). -/
def format_eta (seconds : Int) : String :=
  if seconds < 0 then "--:--"
  else
    let m := seconds / 60
    let s := seconds % 60
    let h := m / 60
    let m2 := m % 60
    if h > 0 then toString h ++ ":" ++ pad2 m2 ++ ":" ++ pad2 s
    else pad2 m2 ++ ":" ++ pad2 s

/-- Embedding of _progress_hook: raises when the stop flag is set (error case), otherwise
emits the listed signals.  Python truthiness on progress.get total_bytes
rejects both an absent key and a zero count; likewise a zero speed or eta is
falsy.  int applied to the nonnegative percent truncates, which is the
floor. -/
def progress_hook (stopFlag : Bool) (p : ProgressDict) : Except String (List Event) :=
  if stopFlag then .error "Download stopped by user"
  else .ok <|
    if p.status = "downloading" then
      (match p.total_bytes with
        | some total =>
          if total ≠ 0 then
            [Event.progressUpdated ⌊(p.downloaded_bytes : ℚ) / (total : ℚ) * 100⌋]
          else []
        | none => []) ++
      (match p.speed with
        | some sp => if sp ≠ 0 then [Event.speedUpdated ("Speed: " ++ format_speed sp)] else []
        | none => []) ++
      (match p.eta with
        | some e => if e ≠ 0 then [Event.etaUpdated ("ETA: " ++ format_eta e)] else []
        | none => [])
    else []

/-! ## Application shell (main.py) and control state (main_window.py) -/

/-- The UI control state the shell toggles: set_download_state enabled sets
the start button to enabled and the stop button to its negation
(main_window.py lines 255-260). -/
structure ShellCtl where
  startEnabled : Bool
  stopEnabled : Bool
  statusText : String
  progressValue : Int
deriving Repr, DecidableEq

/-- Control state after startup: start enabled, stop disabled
(main_window.py lines 237-239), status label "Ready". -/
def initShellCtl : ShellCtl :=
  { startEnabled := true, stopEnabled := false, statusText := "Ready", progressValue := 0 }

/-- One signal delivery through the connections made in _connect_signals:
status_updated sets the status label, progress_updated the bar,
download_complete runs _on_download_complete (re-enable start; error text on
failure), download_stopped runs _on_download_stopped (re-enable start;
"Download stopped"). -/
def shellStep (c : ShellCtl) (e : Event) : ShellCtl :=
  match e with
  | .statusUpdated s => { c with statusText := s }
  | .progressUpdated n => { c with progressValue := n }
  | .speedUpdated _ => c
  | .etaUpdated _ => c
  | .downloadComplete success message =>
      let c2 := { c with startEnabled := true, stopEnabled := false }
      if success then c2 else { c2 with statusText := "Error: " ++ message }
  | .downloadStopped =>
      { c with startEnabled := true, stopEnabled := false, statusText := "Download stopped" }

/-- Deliver a sequence of signals in order. -/
def shellRun (c : ShellCtl) (es : List Event) : ShellCtl :=
  es.foldl shellStep c

/-! ## Projection lemmas for the option-mapper steps -/

@[simp] theorem applyAudioOpts_format (o : Options) (y : YdlOpts) :
    (applyAudioOpts o y).format = y.format := by
  unfold applyAudioOpts; split <;> rfl

@[simp] theorem applyPostStep_format (l : String) (o : Options) (y : YdlOpts) :
    (applyPostStep l o y).format = y.format := by
  unfold applyPostStep; split <;> rfl

@[simp] theorem applyRemux_format (o : Options) (y : YdlOpts) :
    (applyRemux o y).format = y.format := by
  unfold applyRemux; split <;> rfl

@[simp] theorem applySubtitles_format (o : Options) (y : YdlOpts) :
    (applySubtitles o y).format = y.format := by
  unfold applySubtitles; split <;> rfl

@[simp] theorem applyThumbnail_format (o : Options) (y : YdlOpts) :
    (applyThumbnail o y).format = y.format := by
  unfold applyThumbnail; split <;> rfl

@[simp] theorem applyMetadata_format (o : Options) (y : YdlOpts) :
    (applyMetadata o y).format = y.format := by
  unfold applyMetadata; split <;> rfl

@[simp] theorem applyChapters_format (o : Options) (y : YdlOpts) :
    (applyChapters o y).format = y.format := by
  unfold applyChapters; split <;> rfl

@[simp] theorem applySplitChapters_format (o : Options) (y : YdlOpts) :
    (applySplitChapters o y).format = y.format := by
  unfold applySplitChapters; split <;> rfl

@[simp] theorem applyPlaylist_format (o : Options) (y : YdlOpts) :
    (applyPlaylist o y).format = y.format := by
  unfold applyPlaylist; split <;> rfl

@[simp] theorem applySponsorblock_format (o : Options) (y : YdlOpts) :
    (applySponsorblock o y).format = y.format := by
  unfold applySponsorblock; split <;> rfl

@[simp] theorem applyAudioOpts_postprocessors (o : Options) (y : YdlOpts) :
    (applyAudioOpts o y).postprocessors = y.postprocessors := by
  unfold applyAudioOpts; split <;> rfl

@[simp] theorem applyPostStep_postprocessors (l : String) (o : Options) (y : YdlOpts) :
    (applyPostStep l o y).postprocessors =
      y.postprocessors ++
        (if l ∈ audio_only_formats then
          [Postprocessor.ffmpegExtractAudio (defaultAudioExt o) (toString o.audio_quality)]
        else [Postprocessor.ffmpegVideoConvertor (defaultVideoExt o)]) := by
  unfold applyPostStep; split_ifs <;> rfl

@[simp] theorem applyRemux_postprocessors (o : Options) (y : YdlOpts) :
    (applyRemux o y).postprocessors =
      if o.remux_format ≠ "" ∧ o.remux_format ≠ "Default" then [] else y.postprocessors := by
  unfold applyRemux; split_ifs <;> rfl

@[simp] theorem applySubtitles_postprocessors (o : Options) (y : YdlOpts) :
    (applySubtitles o y).postprocessors = y.postprocessors := by
  unfold applySubtitles; split <;> rfl

@[simp] theorem applyThumbnail_postprocessors (o : Options) (y : YdlOpts) :
    (applyThumbnail o y).postprocessors = y.postprocessors := by
  unfold applyThumbnail; split <;> rfl

@[simp] theorem applyMetadata_postprocessors (o : Options) (y : YdlOpts) :
    (applyMetadata o y).postprocessors = y.postprocessors := by
  unfold applyMetadata; split <;> rfl

@[simp] theorem applyChapters_postprocessors (o : Options) (y : YdlOpts) :
    (applyChapters o y).postprocessors = y.postprocessors := by
  unfold applyChapters; split <;> rfl

@[simp] theorem applySplitChapters_postprocessors (o : Options) (y : YdlOpts) :
    (applySplitChapters o y).postprocessors = y.postprocessors := by
  unfold applySplitChapters; split <;> rfl

@[simp] theorem applyPlaylist_postprocessors (o : Options) (y : YdlOpts) :
    (applyPlaylist o y).postprocessors = y.postprocessors := by
  unfold applyPlaylist; split <;> rfl

@[simp] theorem applySponsorblock_postprocessors (o : Options) (y : YdlOpts) :
    (applySponsorblock o y).postprocessors = y.postprocessors := by
  unfold applySponsorblock; split <;> rfl

@[simp] theorem applyAudioOpts_remuxvideo (o : Options) (y : YdlOpts) :
    (applyAudioOpts o y).remuxvideo = y.remuxvideo := by
  unfold applyAudioOpts; split <;> rfl

@[simp] theorem applyPostStep_remuxvideo (l : String) (o : Options) (y : YdlOpts) :
    (applyPostStep l o y).remuxvideo = y.remuxvideo := by
  unfold applyPostStep; split <;> rfl

@[simp] theorem applyRemux_remuxvideo (o : Options) (y : YdlOpts) :
    (applyRemux o y).remuxvideo =
      if o.remux_format ≠ "" ∧ o.remux_format ≠ "Default" then some o.remux_format
      else y.remuxvideo := by
  unfold applyRemux; split_ifs <;> rfl

@[simp] theorem applySubtitles_remuxvideo (o : Options) (y : YdlOpts) :
    (applySubtitles o y).remuxvideo = y.remuxvideo := by
  unfold applySubtitles; split <;> rfl

@[simp] theorem applyThumbnail_remuxvideo (o : Options) (y : YdlOpts) :
    (applyThumbnail o y).remuxvideo = y.remuxvideo := by
  unfold applyThumbnail; split <;> rfl

@[simp] theorem applyMetadata_remuxvideo (o : Options) (y : YdlOpts) :
    (applyMetadata o y).remuxvideo = y.remuxvideo := by
  unfold applyMetadata; split <;> rfl

@[simp] theorem applyChapters_remuxvideo (o : Options) (y : YdlOpts) :
    (applyChapters o y).remuxvideo = y.remuxvideo := by
  unfold applyChapters; split <;> rfl

@[simp] theorem applySplitChapters_remuxvideo (o : Options) (y : YdlOpts) :
    (applySplitChapters o y).remuxvideo = y.remuxvideo := by
  unfold applySplitChapters; split <;> rfl

@[simp] theorem applyPlaylist_remuxvideo (o : Options) (y : YdlOpts) :
    (applyPlaylist o y).remuxvideo = y.remuxvideo := by
  unfold applyPlaylist; split <;> rfl

@[simp] theorem applySponsorblock_remuxvideo (o : Options) (y : YdlOpts) :
    (applySponsorblock o y).remuxvideo = y.remuxvideo := by
  unfold applySponsorblock; split <;> rfl

@[simp] theorem applyPlaylist_noplaylist (o : Options) (y : YdlOpts) :
    (applyPlaylist o y).noplaylist = (if o.playlist then false else true) := by
  unfold applyPlaylist; split_ifs <;> rfl

@[simp] theorem applySponsorblock_noplaylist (o : Options) (y : YdlOpts) :
    (applySponsorblock o y).noplaylist = y.noplaylist := by
  unfold applySponsorblock; split <;> rfl

@[simp] theorem applyAudioOpts_sb (o : Options) (y : YdlOpts) :
    (applyAudioOpts o y).sponsorblock_remove = y.sponsorblock_remove := by
  unfold applyAudioOpts; split <;> rfl

@[simp] theorem applyPostStep_sb (l : String) (o : Options) (y : YdlOpts) :
    (applyPostStep l o y).sponsorblock_remove = y.sponsorblock_remove := by
  unfold applyPostStep; split <;> rfl

@[simp] theorem applyRemux_sb (o : Options) (y : YdlOpts) :
    (applyRemux o y).sponsorblock_remove = y.sponsorblock_remove := by
  unfold applyRemux; split <;> rfl

@[simp] theorem applySubtitles_sb (o : Options) (y : YdlOpts) :
    (applySubtitles o y).sponsorblock_remove = y.sponsorblock_remove := by
  unfold applySubtitles; split <;> rfl

@[simp] theorem applyThumbnail_sb (o : Options) (y : YdlOpts) :
    (applyThumbnail o y).sponsorblock_remove = y.sponsorblock_remove := by
  unfold applyThumbnail; split <;> rfl

@[simp] theorem applyMetadata_sb (o : Options) (y : YdlOpts) :
    (applyMetadata o y).sponsorblock_remove = y.sponsorblock_remove := by
  unfold applyMetadata; split <;> rfl

@[simp] theorem applyChapters_sb (o : Options) (y : YdlOpts) :
    (applyChapters o y).sponsorblock_remove = y.sponsorblock_remove := by
  unfold applyChapters; split <;> rfl

@[simp] theorem applySplitChapters_sb (o : Options) (y : YdlOpts) :
    (applySplitChapters o y).sponsorblock_remove = y.sponsorblock_remove := by
  unfold applySplitChapters; split <;> rfl

@[simp] theorem applyPlaylist_sb (o : Options) (y : YdlOpts) :
    (applyPlaylist o y).sponsorblock_remove = y.sponsorblock_remove := by
  unfold applyPlaylist; split <;> rfl

@[simp] theorem applySponsorblock_sb (o : Options) (y : YdlOpts) :
    (applySponsorblock o y).sponsorblock_remove =
      if o.sponsorblock then some o.sponsorblock_categories else y.sponsorblock_remove := by
  unfold applySponsorblock; split_ifs <;> rfl

/-! ## Characterization of the claim-relevant fields of the mapper output -/

theorem build_format_eq (label p : String) (o : Options) :
    (build_ydl_options label p o).format =
      match formatMapLookup label (defaultVideoExt o) (defaultAudioExt o)
          o.custom_format with
        | some stored => stored
        | none => some (defaultFormatExpr (defaultVideoExt o) (defaultAudioExt o)) := by
  simp [build_ydl_options, baseYdlOpts]

theorem build_postprocessors_eq (label p : String) (o : Options) :
    (build_ydl_options label p o).postprocessors =
      if o.remux_format ≠ "" ∧ o.remux_format ≠ "Default" then []
      else if label ∈ audio_only_formats then
        [Postprocessor.ffmpegExtractAudio (defaultAudioExt o) (toString o.audio_quality)]
      else [Postprocessor.ffmpegVideoConvertor (defaultVideoExt o)] := by
  simp [build_ydl_options, baseYdlOpts]

theorem build_remuxvideo_eq (label p : String) (o : Options) :
    (build_ydl_options label p o).remuxvideo =
      if o.remux_format ≠ "" ∧ o.remux_format ≠ "Default" then some o.remux_format
      else none := by
  simp [build_ydl_options, baseYdlOpts]

theorem build_noplaylist_eq (label p : String) (o : Options) :
    (build_ydl_options label p o).noplaylist = (if o.playlist then false else true) := by
  simp [build_ydl_options, baseYdlOpts]

theorem build_sponsorblock_remove_eq (label p : String) (o : Options) :
    (build_ydl_options label p o).sponsorblock_remove =
      if o.sponsorblock then some o.sponsorblock_categories else none := by
  simp [build_ydl_options, baseYdlOpts]

/-! ## Claim theorems -/

/-- The nine fixed format labels enumerated by the format combo box
(main_window.py lines 85-96), excluding the custom entry. -/
def fixedFormatLabels : List String :=
  ["Best (video+audio)", "Best video only", "Best audio only", "1440p", "1080p",
   "720p", "480p", "360p", "Worst (video+audio)"]

/-- Spec-side table: the documented format-selection template for each fixed
label, as a function of the container extension and the audio extension.
Stated separately from the mapper so the claim compares the two. -/
def documentedTemplate (label v a : String) : String :=
  if label = "Best (video+audio)" then
    "bestvideo[ext=" ++ v ++ "]+bestaudio[ext=" ++ a ++ "]/best[ext=" ++ v ++ "]/best"
  else if label = "Best video only" then "bestvideo[ext=" ++ v ++ "]"
  else if label = "Best audio only" then "bestaudio[ext=" ++ a ++ "]"
  else if label = "1440p" then
    "bestvideo[height<=1440][ext=" ++ v ++ "]+bestaudio[ext=" ++ a ++
      "]/best[height<=1440][ext=" ++ v ++ "]"
  else if label = "1080p" then
    "bestvideo[height<=1080][ext=" ++ v ++ "]+bestaudio[ext=" ++ a ++
      "]/best[height<=1080][ext=" ++ v ++ "]"
  else if label = "720p" then
    "bestvideo[height<=720][ext=" ++ v ++ "]+bestaudio[ext=" ++ a ++
      "]/best[height<=720][ext=" ++ v ++ "]"
  else if label = "480p" then
    "bestvideo[height<=480][ext=" ++ v ++ "]+bestaudio[ext=" ++ a ++
      "]/best[height<=480][ext=" ++ v ++ "]"
  else if label = "360p" then
    "bestvideo[height<=360][ext=" ++ v ++ "]+bestaudio[ext=" ++ a ++
      "]/best[height<=360][ext=" ++ v ++ "]"
  else if label = "Worst (video+audio)" then
    "worstvideo[ext=" ++ v ++ "]+worstaudio[ext=" ++ a ++ "]/worst[ext=" ++ v ++ "]"
  else ""

/-- C1: for every fixed format label and every choice of remux target and
audio format, the format entry of the mapper output is the documented template
for that label, instantiated with the container extension (the lowercased
remux target when one is set and differs from "Default", otherwise mp4) and
the lowercased selected audio extension (otherwise m4a). -/
theorem claim_C1_fixed_format_templates (label : String) (h : label ∈ fixedFormatLabels)
    (p : String) (o : Options) :
    (build_ydl_options label p o).format =
      some (documentedTemplate label
        (if o.remux_format ≠ "" ∧ o.remux_format ≠ "Default" then o.remux_format.toLower
         else "mp4")
        (if o.audio_format ≠ "" then o.audio_format.toLower else "m4a")) := by
  simp only [fixedFormatLabels, List.mem_cons, List.not_mem_nil, or_false] at h
  rcases h with rfl | rfl | rfl | rfl | rfl | rfl | rfl | rfl | rfl <;>
    simp [build_format_eq, formatMapLookup, documentedTemplate,
      defaultVideoExt, defaultAudioExt, defaultFormatExpr]

/-- Sample option set used by witnesses: a non-Default remux target and an
explicit audio format. -/
def sampleOpts : Options :=
  { custom_format := none
    audio_format := "Opus"
    audio_quality := 7
    remux_format := "MKV"
    subtitles := true
    thumbnail := false
    metadata := true
    chapters := false
    split_chapters := false
    playlist := false
    sponsorblock := true
    sponsorblock_categories := "sponsor" }

/-- C1 witness at the 720p label and a concrete option set. -/
theorem claim_C1_witness :
    (build_ydl_options "720p" "/downloads" sampleOpts).format =
      some (documentedTemplate "720p"
        (if sampleOpts.remux_format ≠ "" ∧ sampleOpts.remux_format ≠ "Default" then
          sampleOpts.remux_format.toLower
         else "mp4")
        (if sampleOpts.audio_format ≠ "" then sampleOpts.audio_format.toLower else "m4a")) :=
  claim_C1_fixed_format_templates "720p" (by simp [fixedFormatLabels]) "/downloads" sampleOpts

/-- UI state with the custom label selected and the custom expression field
left empty. -/
def customEmptyUI : UIState :=
  { defaultUIState with formatLabel := "Custom format code...", customFormatText := "" }

/-- C2: evaluation at the failing input.  With the custom label selected and
an empty custom expression, main.py stores the empty string under the
custom_format key, dict.get finds the key present and returns it, and the
format entry of the configuration is the empty string — not the Best
(video+audio) default expression the claim requires. -/
theorem claim_C2_code_eval :
    (build_ydl_options "Custom format code..." "/downloads"
        (assembleOptions customEmptyUI)).format = some "" ∧
    (build_ydl_options "Custom format code..." "/downloads"
        (assembleOptions customEmptyUI)).format ≠
      some (defaultFormatExpr (defaultVideoExt (assembleOptions customEmptyUI))
        (defaultAudioExt (assembleOptions customEmptyUI))) := by
  constructor
  · rfl
  · decide

/-- C3: counterexample to the default-state half of the claim.  The playlist
checkbox is setChecked True in _setup_format_section, so before the user
touches anything the flag is on and the default configuration has
noplaylist false — it is not single-item only. -/
theorem claim_C3_counterexample :
    defaultUIState.playlistChecked = true ∧
    (build_ydl_options defaultUIState.formatLabel "/downloads"
        (assembleOptions defaultUIState)).noplaylist = false := by
  constructor
  · rfl
  · decide

/-- C3 amended: the mapper sets noplaylist true exactly when the playlist
flag is off and false exactly when it is on; but the playlist option
defaults to on, so the default configuration allows playlists. -/
theorem claim_C3_amended (label p : String) (o : Options) :
    ((build_ydl_options label p o).noplaylist = true ↔ o.playlist = false) ∧
    defaultUIState.playlistChecked = true ∧
    (build_ydl_options label p (assembleOptions defaultUIState)).noplaylist = false := by
  refine ⟨?_, rfl, ?_⟩
  · rw [build_noplaylist_eq]
    cases o.playlist <;> simp
  · rw [build_noplaylist_eq]
    simp [assembleOptions, defaultUIState]

/-- UI state selecting the audio-only label together with remux target mkv. -/
def audioRemuxUI : UIState :=
  { defaultUIState with formatLabel := "Best audio only", remuxLabel := "mkv" }

/-- C4: counterexample.  For the audio-only label combined with remux target
mkv, the remux branch wipes the postprocessor list, so no FFmpegExtractAudio
step is present — the claim fails for that combination of the remaining
options. -/
theorem claim_C4_counterexample :
    (build_ydl_options "Best audio only" "/downloads"
        (assembleOptions audioRemuxUI)).postprocessors = [] := by
  decide

/-- C4 amended: for the audio-only label, the configuration contains exactly
the FFmpegExtractAudio step with the lowercased chosen audio format as
preferred codec and the chosen audio quality as preferred quality —
provided the remux target is unset or "Default"; choosing any other remux
target empties the postprocessor list, removing the extraction step. -/
theorem claim_C4_amended (p : String) (o : Options) :
    (build_ydl_options "Best audio only" p o).postprocessors =
      if o.remux_format ≠ "" ∧ o.remux_format ≠ "Default" then []
      else [Postprocessor.ffmpegExtractAudio
        (if o.audio_format ≠ "" then o.audio_format.toLower else "m4a")
        (toString o.audio_quality)] := by
  rw [build_postprocessors_eq]
  simp [audio_only_formats, defaultAudioExt]

/-- C5: for every label that is not audio-only, the configuration attaches
the FFmpegVideoConvertor step targeting the chosen container when the remux
target is unset or "Default"; with any other remux target the postprocessor
list contains no conversion step (it is empty) and remuxing is requested
with the chosen target. -/
theorem claim_C5_video_conversion (label p : String) (o : Options)
    (h : label ∉ audio_only_formats) :
    ((o.remux_format = "" ∨ o.remux_format = "Default") →
      (build_ydl_options label p o).postprocessors =
        [Postprocessor.ffmpegVideoConvertor
          (if o.remux_format ≠ "" ∧ o.remux_format ≠ "Default" then o.remux_format.toLower
           else "mp4")] ∧
      (build_ydl_options label p o).remuxvideo = none) ∧
    (o.remux_format ≠ "" ∧ o.remux_format ≠ "Default" →
      (build_ydl_options label p o).postprocessors = [] ∧
      (build_ydl_options label p o).remuxvideo = some o.remux_format) := by
  constructor
  · intro hd
    rw [build_postprocessors_eq, build_remuxvideo_eq]
    have hc : ¬(o.remux_format ≠ "" ∧ o.remux_format ≠ "Default") := by
      rcases hd with h1 | h1 <;> simp [h1]
    simp [hc, h, defaultVideoExt]
  · intro hd
    rw [build_postprocessors_eq, build_remuxvideo_eq]
    simp [hd]

/-- C5 witness at the 1080p label, once with remux Default and once with
remux mkv. -/
theorem claim_C5_witness :
    (((sampleOpts.remux_format = "" ∨ sampleOpts.remux_format = "Default") →
      (build_ydl_options "1080p" "/downloads" sampleOpts).postprocessors =
        [Postprocessor.ffmpegVideoConvertor
          (if sampleOpts.remux_format ≠ "" ∧ sampleOpts.remux_format ≠ "Default" then
            sampleOpts.remux_format.toLower
           else "mp4")] ∧
      (build_ydl_options "1080p" "/downloads" sampleOpts).remuxvideo = none) ∧
    (sampleOpts.remux_format ≠ "" ∧ sampleOpts.remux_format ≠ "Default" →
      (build_ydl_options "1080p" "/downloads" sampleOpts).postprocessors = [] ∧
      (build_ydl_options "1080p" "/downloads" sampleOpts).remuxvideo =
        some sampleOpts.remux_format)) :=
  claim_C5_video_conversion "1080p" "/downloads" sampleOpts (by simp [audio_only_formats])

/-- C6: invoking start_download while the download thread is alive emits
exactly the refusal status notification and returns with the manager state
unchanged (stop flag, stored engine options, thread reference all
untouched) and zero new threads created or started. -/
theorem claim_C6_single_flight (s : MgrState) (h : s.threadAlive = true)
    (label p : String) (o : Options) :
    start_download s label p o =
      (s, [Event.statusUpdated "A download is already in progress"], 0) := by
  unfold start_download
  simp [h]

/-- C6 witness: a manager whose thread is alive mid-download. -/
theorem claim_C6_witness :
    start_download { stopFlag := false, threadAlive := true, ydlOpts := none }
        "720p" "/downloads" sampleOpts =
      ({ stopFlag := false, threadAlive := true, ydlOpts := none },
       [Event.statusUpdated "A download is already in progress"], 0) :=
  claim_C6_single_flight _ rfl "720p" "/downloads" sampleOpts

/-- C7: counterexample.  When the stop flag aborts the engine call through
the progress-hook exception ("Download stopped by user"), the except clause
of _download_video emits download_complete false with that text — a
completion notification after the cancellation, which the claim forbids.
The first conjunct shows the hook raises exactly that exception once the
flag is set. -/
theorem claim_C7_counterexample :
    progress_hook true
        { status := "downloading", downloaded_bytes := 0, total_bytes := none,
          speed := none, eta := none } = Except.error "Download stopped by user" ∧
    Event.downloadComplete false "Download stopped by user" ∈
      stop_download_events ++
        download_video_events
          (EngineBehavior.downloadRaises "video" "Download stopped by user") true := by
  exact ⟨rfl, by decide⟩

/-- The download_complete payloads a run with the given engine behaviour
emits after a cancellation: none when the engine call returns normally (the
flag check at line 161 takes the stopped path), and one failure payload
carrying the exception text when the call unwinds by raising. -/
def completion_payloads : EngineBehavior → List (Bool × String)
  | .extractRaises msg => [(false, msg)]
  | .extractNone => [(false, "Failed to extract video info")]
  | .downloadRaises _ msg => [(false, msg)]
  | .succeeds _ _ => []

/-- The payload of a download_complete signal, none for other signals. -/
def completePayload : Event → Option (Bool × String)
  | .downloadComplete success message => some (success, message)
  | _ => none

/-- C7 amended: after stop_download on a running download, the cancellation
notification download_stopped is emitted (synchronously by stop_download,
and again by the worker when the engine call returns normally with the flag
set), and the start control ends up re-enabled; but download_complete
notifications are absent only when the engine call returns normally — when
the cooperative stop aborts the call via the hook exception, a failure
download_complete carrying the exception text follows the cancellation. -/
theorem claim_C7_amended (b : EngineBehavior) :
    Event.downloadStopped ∈ stop_download_events ++ download_video_events b true ∧
    (shellRun initShellCtl
      (stop_download_events ++ download_video_events b true)).startEnabled = true ∧
    (stop_download_events ++ download_video_events b true).filterMap completePayload =
      completion_payloads b := by
  cases b <;>
    simp [stop_download_events, download_video_events, shellRun, shellStep,
      initShellCtl, completion_payloads, completePayload, List.filterMap]

/-- The error text carried by each failing engine behaviour; none for a
successful run. -/
def failure_message : EngineBehavior → Option String
  | .extractRaises msg => some msg
  | .extractNone => some "Failed to extract video info"
  | .downloadRaises _ msg => some msg
  | .succeeds _ _ => none

/-- C8: every exception raised by the engine call is caught by the worker
(download_video_events is total: nothing propagates out of the thread) and
converted to download_complete false carrying the exception text; the shell
handler _on_download_complete then re-enables the start control and shows
the error text. -/
theorem claim_C8_engine_failure (b : EngineBehavior) (stopFlag : Bool) (m : String)
    (h : failure_message b = some m) :
    Event.downloadComplete false m ∈ download_video_events b stopFlag ∧
    (shellRun initShellCtl (download_video_events b stopFlag)).startEnabled = true ∧
    (shellRun initShellCtl (download_video_events b stopFlag)).statusText =
      "Error: " ++ m := by
  cases b <;>
    simp_all [failure_message, download_video_events, shellRun, shellStep, initShellCtl]

/-- C8 witness: a network failure raised during extraction. -/
theorem claim_C8_witness :
    Event.downloadComplete false "Unable to download webpage" ∈
      download_video_events (EngineBehavior.extractRaises "Unable to download webpage")
        false ∧
    (shellRun initShellCtl
      (download_video_events (EngineBehavior.extractRaises "Unable to download webpage")
        false)).startEnabled = true ∧
    (shellRun initShellCtl
      (download_video_events (EngineBehavior.extractRaises "Unable to download webpage")
        false)).statusText = "Error: " ++ "Unable to download webpage" :=
  claim_C8_engine_failure (EngineBehavior.extractRaises "Unable to download webpage")
    false "Unable to download webpage" rfl

/-- UI state with SponsorBlock enabled and a category string padded with
surrounding spaces. -/
def paddedSponsorUI : UIState :=
  { defaultUIState with sponsorblockChecked := true,
                        sponsorblockCategoriesText := " sponsor,intro " }

/-- C9: counterexample to the verbatim half of the claim.  main.py strips
the category text before storing it, so for the non-blank entered string
" sponsor,intro " the directive is the trimmed "sponsor,intro", not the
entered string exactly. -/
theorem claim_C9_counterexample :
    (build_ydl_options "Best (video+audio)" "/downloads"
        (assembleOptions paddedSponsorUI)).sponsorblock_remove = some "sponsor,intro" ∧
    paddedSponsorUI.sponsorblockCategoriesText = " sponsor,intro " ∧
    some "sponsor,intro" ≠ some " sponsor,intro " := by
  refine ⟨by decide, rfl, by decide⟩

/-- C9 amended: with the SponsorBlock flag on, the segment-removal directive
is the entered category string with surrounding whitespace stripped when the
stripped string is non-empty (so an already-trimmed entry such as
"sponsor,intro" appears exactly), and "all" when the entered string is blank
or whitespace-only; with the flag off the directive is absent. -/
theorem claim_C9_amended (ui : UIState) (label p : String) :
    (build_ydl_options label p (assembleOptions ui)).sponsorblock_remove =
      if ui.sponsorblockChecked then
        some (if pyStrip ui.sponsorblockCategoriesText = "" then "all"
              else pyStrip ui.sponsorblockCategoriesText)
      else none := by
  rw [build_sponsorblock_remove_eq]
  cases hb : ui.sponsorblockChecked <;> simp [assembleOptions, hb]

/-- The signal list _progress_hook emits: empty when it raises instead. -/
def hook_events (stopFlag : Bool) (p : ProgressDict) : List Event :=
  match progress_hook stopFlag p with
  | .ok es => es
  | .error _ => []

/-- The floor of the rational percentage is the natural-number truncation of
downloaded * 100 / total. -/
theorem percent_floor_eq (d t : ℕ) :
    ⌊(d : ℚ) / (t : ℚ) * 100⌋ = ((d * 100 / t : ℕ) : ℤ) := by
  have h1 : (d : ℚ) / (t : ℚ) * 100 = ((d * 100 : ℕ) : ℚ) / ((t : ℕ) : ℚ) := by
    push_cast; ring
  rw [h1, Rat.floor_natCast_div_natCast]
  norm_cast

/-- C10: every progress percentage the hook emits comes from an event whose
total byte count is present and non-zero (so the division is guarded), and
its value is the integer truncation of downloaded_bytes / total_bytes * 100;
an event whose status is not "downloading" causes no emission at all. -/
theorem claim_C10_progress_safety (stopFlag : Bool) (p : ProgressDict) :
    (∀ v : Int, Event.progressUpdated v ∈ hook_events stopFlag p →
      ∃ total : Nat, p.total_bytes = some total ∧ total ≠ 0 ∧
        v = ((p.downloaded_bytes * 100 / total : ℕ) : ℤ)) ∧
    (p.status ≠ "downloading" → hook_events stopFlag p = []) := by
  unfold hook_events progress_hook
  cases stopFlag
  · simp only [Bool.false_eq_true, if_false]
    by_cases hs : p.status = "downloading"
    · refine ⟨?_, fun hns => absurd hs hns⟩
      intro v hv
      simp only [hs, if_true] at hv
      rcases htb : p.total_bytes with _ | total <;>
        rcases hsp : p.speed with _ | sp <;>
        rcases het : p.eta with _ | e <;>
          simp only [htb, hsp, het] at hv <;>
          (try split_ifs at hv) <;>
          simp_all [percent_floor_eq]
    · simp [hs]
  · simp

/-- A downloading event with 1 of 3 bytes transferred. -/
def sampleProgress : ProgressDict :=
  { status := "downloading", downloaded_bytes := 1, total_bytes := some 3,
    speed := none, eta := none }

/-- C10 witness: the sample downloading event yields the truncated
percentage 33. -/
theorem claim_C10_witness :
    ∃ total : Nat, sampleProgress.total_bytes = some total ∧
      total ≠ 0 ∧ (33 : Int) = ((sampleProgress.downloaded_bytes * 100 / total : ℕ) : ℤ) :=
  (claim_C10_progress_safety false sampleProgress).1 33 (by
    have h : hook_events false sampleProgress =
        [Event.progressUpdated ⌊((1 : ℕ) : ℚ) / ((3 : ℕ) : ℚ) * 100⌋] := rfl
    rw [h, percent_floor_eq]
    norm_num)

end VideoDownloader
